import Mathlib

/-!
Verification of the Prague congestion-control module (src/picoquic/prague.c).

The module is shallowly embedded: the per-path controller state
`picoquic_prague_state` and the externally owned path window are explicit
records, every uint64 quantity is a natural number, and each C function
becomes a pure Lean function on these records.  The two places where the C
source deliberately relies on two's-complement wraparound — the signed EWMA
accumulator update (`alpha_shifted += delta_frac`) and the spurious-repeat
doubling `2 * ssthresh` — are modelled with an explicit modulus `U64_SIZE`.
All other arithmetic in the source is guarded against underflow, and additive
uint64 overflow is unreachable on any physically realizable trace (the window
is bounded by the total number of bytes ever acknowledged), so those
operations are modelled over unbounded naturals; the host contract
`valid_input` records the corresponding operating-range assumptions.
-/

/-- Modelled from the spec: 2^64, the modulus of the C uint64 arithmetic
(the type of every counter in prague.c; picoquic_internal.h is not under
src/). -/
def U64_SIZE : Nat := 18446744073709551616

/-- Modelled from the spec: value of the C expression (uint64_t)((int64_t)-1)
used as the "ssthresh unset" sentinel. -/
def UINT64_MAX : Nat := U64_SIZE - 1

/-- Modelled from the spec: maximum packet size from picoquic_internal.h
(not under src/); bounds path_x->send_mtu. -/
def PICOQUIC_MAX_PACKET_SIZE : Nat := 1536

/-- Modelled from the spec: fixed initial congestion window from
picoquic_internal.h (not under src/), ten maximum-size packets. -/
def PICOQUIC_CWIN_INITIAL : Nat := 10 * PICOQUIC_MAX_PACKET_SIZE

/-- Modelled from the spec: the minimum-window floor from
picoquic_internal.h (not under src/), two maximum-size packets. -/
def PICOQUIC_CWIN_MINIMUM : Nat := 2 * PICOQUIC_MAX_PACKET_SIZE

/-- Modelled from the spec: the target RTT constant from
picoquic_internal.h (not under src/), in microseconds. -/
def PICOQUIC_TARGET_RENO_RTT : Nat := 100000

/-- Gain parameter shift for the alpha EWMA, g = 1/2^4 (prague.c line 107). -/
def PRAGUE_SHIFT_G : Nat := 4

/-- The two growth states of the controller (prague.c lines 101-104). -/
inductive picoquic_prague_alg_state where
  | slow_start
  | congestion_avoidance
deriving DecidableEq

/-- Notification kinds delivered by the host transport; `other` stands for
every kind the switch in picoquic_prague_notify ignores via its default
label. -/
inductive picoquic_congestion_notification where
  | acknowledgement
  | ecn_ec
  | repeat_loss
  | timeout
  | spurious_repeat
  | rtt_measurement
  | bw_measurement
  | reset
  | other
deriving DecidableEq

/-- The private controller state st_picoquic_prague_state_t
(prague.c lines 110-132).  The fields min_rtt, last_rtt, nb_rtt, rtt_filter
and flags are never read by the logic modelled here (rtt_filter is consumed
only by the external hystart test, whose verdict is an input), so they are
omitted. -/
structure picoquic_prague_state where
  alg_state : picoquic_prague_alg_state
  alpha_shifted : Nat
  alpha : Nat
  acked_bytes_ecn : Nat
  acked_bytes_total : Nat
  loss_cwnd : Nat
  residual_ack : Nat
  ssthresh : Nat
  recovery_start : Nat
  l4s_epoch_send : Nat
  l4s_epoch_ect0 : Nat
  l4s_epoch_ce : Nat
deriving DecidableEq

/-- The externally owned path fields the controller mutates: the congestion
window and the threshold-set flag (path_x->is_ssthresh_initialized in the
source; renamed here). -/
structure path_state where
  cwin : Nat
  is_ssthresh_init : Bool
deriving DecidableEq

/-- Everything picoquic_prague_notify reads from its arguments and from the
path/connection/packet-context for one call.  The ECN counters are those of
the packet context resolved by the multipath lookup (lines 208-217); the
lookup itself is environmental and not modelled.  `hystart_exit` is the
verdict of the external picoquic_hystart_test; `rtt_boost_win` is the value
`min_win` computed on lines 367-373 with double-precision arithmetic, which
is external to this integer model and therefore environment-supplied. -/
structure notify_input where
  notification : picoquic_congestion_notification
  rtt_measurement : Nat
  one_way_delay : Nat
  nb_bytes_acknowledged : Nat
  current_time : Nat
  smoothed_rtt : Nat
  rtt_min : Nat
  send_mtu : Nat
  max_bandwidth_estimate : Nat
  path_packet_acked_number : Nat
  send_sequence : Nat
  ecn_ect0_total_remote : Nat
  ecn_ce_total_remote : Nat
  hystart_exit : Bool
  rtt_boost_win : Nat
deriving DecidableEq

/-- Wrapping uint64 subtraction a - b as the C source performs it through
two's complement; agrees with plain Nat subtraction when b ≤ a < 2^64. -/
def sub64 (a b : Nat) : Nat := (a + (U64_SIZE - b % U64_SIZE)) % U64_SIZE

/-- The CE-mark fraction of lines 226-231:
frac = delta_ce > 0 ? delta_ce * 1024 / (delta_ce + delta_ect0) : 0. -/
def prague_frac (delta_ce delta_ect0 : Nat) : Nat :=
  if 0 < delta_ce then delta_ce * 1024 / (delta_ce + delta_ect0) else 0

/-- The alpha update of lines 234-243: snap when frac > 512, otherwise the
EWMA step alpha_shifted += (frac - alpha); alpha = alpha_shifted >> 4, whose
possibly-negative int64 increment is wrapping uint64 arithmetic (sub64).
Returns (alpha, alpha_shifted). -/
def prague_epoch_alpha (alpha alpha_shifted frac : Nat) : Nat × Nat :=
  if 512 < frac then
    (frac, frac <<< PRAGUE_SHIFT_G)
  else
    let sh := sub64 (alpha_shifted + frac) alpha
    (sh >>> PRAGUE_SHIFT_G, sh)

/-- picoquic_prague_init (lines 134-150), successful-allocation case: zeroed
state, slow start, sentinel ssthresh, initial window.  The path's
threshold-set flag is whatever it was before init. -/
def picoquic_prague_init (f : Bool) : picoquic_prague_state × path_state :=
  ({ alg_state := .slow_start
     alpha_shifted := 0
     alpha := 0
     acked_bytes_ecn := 0
     acked_bytes_total := 0
     loss_cwnd := 0
     residual_ack := 0
     ssthresh := UINT64_MAX
     recovery_start := 0
     l4s_epoch_send := 0
     l4s_epoch_ect0 := 0
     l4s_epoch_ce := 0 },
   { cwin := PICOQUIC_CWIN_INITIAL, is_ssthresh_init := f })

/-- picoquic_prague_enter_recovery (lines 154-195). -/
def picoquic_prague_enter_recovery
    (notification : picoquic_congestion_notification)
    (inp : notify_input) (s : picoquic_prague_state) (pw : path_state) :
    picoquic_prague_state × path_state :=
  let ssthresh0 := pw.cwin / 2
  let ssthresh1 :=
    if ssthresh0 < PICOQUIC_CWIN_MINIMUM then PICOQUIC_CWIN_MINIMUM else ssthresh0
  let cwin1 :=
    if notification = .timeout then PICOQUIC_CWIN_MINIMUM else ssthresh1
  let alg1 : picoquic_prague_alg_state :=
    if notification = .timeout then .slow_start else .congestion_avoidance
  ({ s with
      ssthresh := ssthresh1
      alg_state := alg1
      recovery_start := inp.current_time
      residual_ack := 0
      l4s_epoch_send := inp.send_sequence
      l4s_epoch_ect0 := inp.ecn_ect0_total_remote
      l4s_epoch_ce := inp.ecn_ce_total_remote
      alpha := 0
      alpha_shifted := 0 },
   { pw with cwin := cwin1 })

/-- picoquic_prague_reset (lines 198-202): clear the two byte-accumulation
counters, nothing else. -/
def picoquic_prague_reset (s : picoquic_prague_state) : picoquic_prague_state :=
  { s with acked_bytes_ecn := 0, acked_bytes_total := 0 }

/-- picoquic_prague_update_alpha (lines 204-272).  The deltas on lines
223-224 are plain subtractions because the epoch snapshots never exceed the
monotone external counters (valid_input); the reduction on line 259 cannot
underflow because alpha ≤ 1024 < 2048 in every reachable state. -/
def picoquic_prague_update_alpha (inp : notify_input)
    (s : picoquic_prague_state) (pw : path_state) :
    picoquic_prague_state × path_state :=
  if s.l4s_epoch_send ≤ inp.path_packet_acked_number then
    let delta_ect0 := inp.ecn_ect0_total_remote - s.l4s_epoch_ect0
    let delta_ce := inp.ecn_ce_total_remote - s.l4s_epoch_ce
    let frac := prague_frac delta_ce delta_ect0
    let pair :=
      if 0 < delta_ce ∨ 0 < delta_ect0 then
        prague_epoch_alpha s.alpha s.alpha_shifted frac
      else (s.alpha, s.alpha_shifted)
    let s1 := { s with
      alpha := pair.1
      alpha_shifted := pair.2
      l4s_epoch_send := inp.send_sequence
      l4s_epoch_ect0 := inp.ecn_ect0_total_remote
      l4s_epoch_ce := inp.ecn_ce_total_remote }
    if 0 < delta_ce then
      if 512 < s1.alpha then
        picoquic_prague_enter_recovery .ecn_ec inp s1 pw
      else
        let reduction := pw.cwin * s1.alpha / 2048
        let ssth := pw.cwin - reduction
        let ssth1 :=
          if ssth < PICOQUIC_CWIN_MINIMUM then PICOQUIC_CWIN_MINIMUM else ssth
        ({ s1 with
            loss_cwnd := pw.cwin
            ssthresh := ssth1
            alg_state := .congestion_avoidance },
         { pw with cwin := ssth1 })
    else (s1, pw)
  else (s, pw)

/-- picoquic_prague_notify (lines 276-412).  The switch on alg_state inside
the acknowledgement case has the congestion-avoidance label share its block
with the default label, so it is rendered as an if on slow_start.  The
trailing
picoquic_update_pacing_data call mutates only pacing fields outside this
model.  The `2 * ssthresh` of the spurious-repeat branch is uint64
multiplication and is reduced mod 2^64 in both the comparison and the
assignment, exactly as the C expression evaluates. -/
def picoquic_prague_notify (inp : notify_input)
    (sp : picoquic_prague_state × path_state) :
    picoquic_prague_state × path_state :=
  let s := sp.1
  let pw := sp.2
  match inp.notification with
  | .acknowledgement =>
    let s0 :=
      if inp.nb_bytes_acknowledged ≠ 0 then
        { s with acked_bytes_total := s.acked_bytes_total + inp.nb_bytes_acknowledged }
      else s
    let spa := picoquic_prague_update_alpha inp s0 pw
    let s1 := spa.1
    let pw1 := spa.2
    if s1.alg_state = .slow_start then
      let cwin2 :=
        if inp.smoothed_rtt ≤ PICOQUIC_TARGET_RENO_RTT then
          pw1.cwin + inp.nb_bytes_acknowledged * (1024 - s1.alpha) / 1024
        else
          pw1.cwin + inp.nb_bytes_acknowledged * inp.smoothed_rtt * (1024 - s1.alpha)
            / PICOQUIC_TARGET_RENO_RTT / 1024
      if s1.ssthresh ≤ cwin2 then
        ({ s1 with alg_state := .congestion_avoidance }, { pw1 with cwin := cwin2 })
      else (s1, { pw1 with cwin := cwin2 })
    else
      let complete_delta := inp.nb_bytes_acknowledged * inp.send_mtu + s1.residual_ack
      let delta := complete_delta / pw1.cwin * (1024 - s1.alpha) / 1024
      ({ s1 with residual_ack := complete_delta % pw1.cwin },
       { pw1 with cwin := pw1.cwin + delta })
  | .ecn_ec =>
    if s.alg_state = .slow_start ∧ s.ssthresh = UINT64_MAX then
      let cwin1 := if inp.send_mtu < pw.cwin then pw.cwin - inp.send_mtu else pw.cwin
      ({ s with ssthresh := cwin1, alg_state := .congestion_avoidance },
       { pw with cwin := cwin1, is_ssthresh_init := true })
    else (s, pw)
  | .repeat_loss =>
    if inp.smoothed_rtt < inp.current_time - s.recovery_start then
      picoquic_prague_enter_recovery .repeat_loss inp s pw
    else (s, pw)
  | .timeout =>
    if inp.smoothed_rtt < inp.current_time - s.recovery_start then
      picoquic_prague_enter_recovery .timeout inp s pw
    else (s, pw)
  | .spurious_repeat =>
    if inp.current_time - s.recovery_start < inp.smoothed_rtt then
      if pw.cwin < (2 * s.ssthresh) % U64_SIZE then
        ({ s with alg_state := .congestion_avoidance },
         { pw with cwin := (2 * s.ssthresh) % U64_SIZE })
      else (s, pw)
    else (s, pw)
  | .rtt_measurement =>
    if s.alg_state = .slow_start ∧ s.ssthresh = UINT64_MAX then
      let cwin1 :=
        if PICOQUIC_TARGET_RENO_RTT < inp.rtt_min then
          (if pw.cwin < inp.rtt_boost_win then inp.rtt_boost_win else pw.cwin)
        else pw.cwin
      if inp.hystart_exit then
        ({ s with ssthresh := cwin1, alg_state := .congestion_avoidance },
         { pw with cwin := cwin1, is_ssthresh_init := true })
      else (s, { pw with cwin := cwin1 })
    else (s, pw)
  | .bw_measurement =>
    if s.alg_state = .slow_start ∧ s.ssthresh = UINT64_MAX then
      let min_win := inp.max_bandwidth_estimate * inp.smoothed_rtt / 1000000 / 2
      if pw.cwin < min_win then (s, { pw with cwin := min_win }) else (s, pw)
    else (s, pw)
  | .reset => (picoquic_prague_reset s, pw)
  | .other => (s, pw)

/-- The host contract under which notifications are delivered: the external
ECN counters and send sequence are monotone (so the snapshots taken earlier
never exceed them), time is monotone, the send MTU is a positive packet
size, and the uint64 quantities stay within their operating range (a window
above 2^63 bytes or an RTT-scaled initial window above 2^63 would require
more than 9 exabytes in flight, beyond any realizable trace). -/
def valid_input (sp : picoquic_prague_state × path_state) (inp : notify_input) : Prop :=
  sp.1.l4s_epoch_send ≤ inp.send_sequence ∧
  sp.1.l4s_epoch_ect0 ≤ inp.ecn_ect0_total_remote ∧
  sp.1.l4s_epoch_ce ≤ inp.ecn_ce_total_remote ∧
  sp.1.recovery_start ≤ inp.current_time ∧
  0 < inp.send_mtu ∧
  inp.send_mtu ≤ PICOQUIC_MAX_PACKET_SIZE ∧
  inp.rtt_boost_win ≤ 2 ^ 63 ∧
  sp.2.cwin ≤ 2 ^ 63

instance (sp : picoquic_prague_state × path_state) (inp : notify_input) :
    Decidable (valid_input sp inp) := by
  unfold valid_input; infer_instance

/-- States reachable from init by any sequence of notifications delivered
under the host contract. -/
inductive prague_reachable : picoquic_prague_state × path_state → Prop where
  | init : ∀ f, prague_reachable (picoquic_prague_init f)
  | step : ∀ sp inp, prague_reachable sp → valid_input sp inp →
      prague_reachable (picoquic_prague_notify inp sp)

/-- The inductive invariant: alpha mirrors the shifted accumulator, alpha is
within its Q10 range, the window never sits below the minimum floor, and
while slow start has not been exited (ssthresh still the sentinel) the
window has only ever grown from its initial value. -/
def prague_inv (sp : picoquic_prague_state × path_state) : Prop :=
  sp.1.alpha = sp.1.alpha_shifted >>> PRAGUE_SHIFT_G ∧
  sp.1.alpha ≤ 1024 ∧
  PICOQUIC_CWIN_MINIMUM ≤ sp.2.cwin ∧
  ((sp.1.alg_state = .slow_start ∧ sp.1.ssthresh = UINT64_MAX) →
    PICOQUIC_CWIN_INITIAL ≤ sp.2.cwin)

lemma sub64_eq_sub (a b : Nat) (hb : b ≤ a) (ha : a < U64_SIZE) :
    sub64 a b = a - b := by
  simp only [sub64, U64_SIZE] at *
  omega

lemma prague_frac_le (dce de0 : Nat) : prague_frac dce de0 ≤ 1024 := by
  unfold prague_frac
  split
  · rename_i h
    have h1 : dce * 1024 ≤ (dce + de0) * 1024 :=
      Nat.mul_le_mul_right _ (Nat.le_add_right _ _)
    calc dce * 1024 / (dce + de0)
        ≤ (dce + de0) * 1024 / (dce + de0) := Nat.div_le_div_right h1
      _ = 1024 := Nat.mul_div_cancel_left _ (by omega)
  · omega

lemma prague_epoch_alpha_spec (al sh fr : Nat)
    (h1 : al = sh >>> PRAGUE_SHIFT_G) (h2 : al ≤ 1024) (h3 : fr ≤ 1024) :
    (prague_epoch_alpha al sh fr).1 = (prague_epoch_alpha al sh fr).2 >>> PRAGUE_SHIFT_G ∧
    (prague_epoch_alpha al sh fr).1 ≤ 1024 := by
  have e16 : (2 : Nat) ^ 4 = 16 := by norm_num
  unfold prague_epoch_alpha
  simp only [Nat.shiftRight_eq_div_pow, Nat.shiftLeft_eq, PRAGUE_SHIFT_G, e16] at *
  split
  · refine ⟨?_, h3⟩
    omega
  · rename_i hfr
    have hsub : sub64 (sh + fr) al = sh + fr - al :=
      sub64_eq_sub _ _ (by omega) (by simp only [U64_SIZE]; omega)
    rw [hsub]
    refine ⟨rfl, ?_⟩
    omega

lemma prague_epoch_alpha_ewma (al sh fr : Nat)
    (h1 : al = sh >>> PRAGUE_SHIFT_G) (h2 : al ≤ 512) (hfr : fr ≤ 512) :
    prague_epoch_alpha al sh fr = ((sh + fr - al) >>> PRAGUE_SHIFT_G, sh + fr - al) ∧
    (sh + fr - al) >>> PRAGUE_SHIFT_G ≤ 512 := by
  have e16 : (2 : Nat) ^ 4 = 16 := by norm_num
  unfold prague_epoch_alpha
  simp only [Nat.shiftRight_eq_div_pow, PRAGUE_SHIFT_G, e16] at *
  have hsub : sub64 (sh + fr) al = sh + fr - al :=
    sub64_eq_sub _ _ (by omega) (by simp only [U64_SIZE]; omega)
  rw [if_neg (by omega), hsub]
  exact ⟨rfl, by omega⟩

lemma enter_recovery_inv (n : picoquic_congestion_notification) (inp : notify_input)
    (s : picoquic_prague_state) (pw : path_state) (hc : pw.cwin ≤ 2 ^ 63) :
    prague_inv (picoquic_prague_enter_recovery n inp s pw) := by
  unfold picoquic_prague_enter_recovery prague_inv
  dsimp only
  refine ⟨by decide, by decide, ?_, ?_⟩
  · simp only [PICOQUIC_CWIN_MINIMUM, PICOQUIC_MAX_PACKET_SIZE]
    split
    · omega
    · split <;> omega
  · intro hss
    by_cases hn : n = picoquic_congestion_notification.timeout
    · simp only [hn, if_pos rfl] at hss
      have h2 := hss.2
      simp only [UINT64_MAX, U64_SIZE, PICOQUIC_CWIN_MINIMUM,
        PICOQUIC_MAX_PACKET_SIZE] at h2
      split at h2 <;> omega
    · simp only [if_neg hn] at hss
      exact absurd hss.1 (by simp)

lemma update_alpha_inv (inp : notify_input) (s : picoquic_prague_state) (pw : path_state)
    (h : prague_inv (s, pw)) (hc : pw.cwin ≤ 2 ^ 63) :
    prague_inv (picoquic_prague_update_alpha inp s pw) := by
  obtain ⟨h1, h2, h3, h4⟩ := h
  simp only at h1 h2 h3 h4
  simp only [picoquic_prague_update_alpha]
  by_cases hep : s.l4s_epoch_send ≤ inp.path_packet_acked_number
  · rw [if_pos hep]
    by_cases hce : 0 < inp.ecn_ce_total_remote - s.l4s_epoch_ce
    · rw [if_pos hce,
        if_pos (Or.inl hce :
          0 < inp.ecn_ce_total_remote - s.l4s_epoch_ce ∨
          0 < inp.ecn_ect0_total_remote - s.l4s_epoch_ect0)]
      have hspec := prague_epoch_alpha_spec s.alpha s.alpha_shifted
        (prague_frac (inp.ecn_ce_total_remote - s.l4s_epoch_ce)
          (inp.ecn_ect0_total_remote - s.l4s_epoch_ect0)) h1 h2 (prague_frac_le _ _)
      split
      · exact enter_recovery_inv _ _ _ _ hc
      · refine ⟨hspec.1, hspec.2, ?_, ?_⟩
        · simp only [PICOQUIC_CWIN_MINIMUM, PICOQUIC_MAX_PACKET_SIZE] at h3 ⊢
          split <;> omega
        · intro hss
          exact absurd hss.1 (by simp)
    · rw [if_neg hce]
      by_cases hor : 0 < inp.ecn_ce_total_remote - s.l4s_epoch_ce ∨
          0 < inp.ecn_ect0_total_remote - s.l4s_epoch_ect0
      · rw [if_pos hor]
        have hspec := prague_epoch_alpha_spec s.alpha s.alpha_shifted
          (prague_frac (inp.ecn_ce_total_remote - s.l4s_epoch_ce)
            (inp.ecn_ect0_total_remote - s.l4s_epoch_ect0)) h1 h2 (prague_frac_le _ _)
        exact ⟨hspec.1, hspec.2, h3, fun hss => h4 ⟨hss.1, hss.2⟩⟩
      · rw [if_neg hor]
        exact ⟨h1, h2, h3, fun hss => h4 ⟨hss.1, hss.2⟩⟩
  · rw [if_neg hep]
    exact ⟨h1, h2, h3, h4⟩

lemma notify_inv (sp : picoquic_prague_state × path_state) (inp : notify_input)
    (h : prague_inv sp) (hv : valid_input sp inp) :
    prague_inv (picoquic_prague_notify inp sp) := by
  obtain ⟨s, pw⟩ := sp
  obtain ⟨h1, h2, h3, h4⟩ := h
  obtain ⟨v1, v2, v3, v4, v5, v6, v7, v8⟩ := hv
  cases hn : inp.notification
  case acknowledgement =>
    simp only [picoquic_prague_notify, hn]
    set s0 := (if inp.nb_bytes_acknowledged ≠ 0 then
        { s with acked_bytes_total := s.acked_bytes_total + inp.nb_bytes_acknowledged }
      else s) with hs0
    have hinv0 : prague_inv (s0, pw) := by
      rw [hs0]
      split <;> exact ⟨h1, h2, h3, fun hss => h4 ⟨hss.1, hss.2⟩⟩
    obtain ⟨g1, g2, g3, g4⟩ := update_alpha_inv inp s0 pw hinv0 v8
    by_cases ha : (picoquic_prague_update_alpha inp s0 pw).1.alg_state =
        picoquic_prague_alg_state.slow_start
    · rw [if_pos ha]
      split
      · split
        · exact ⟨g1, g2, le_trans g3 (Nat.le_add_right _ _),
            fun hss => absurd hss.1 (by simp)⟩
        · exact ⟨g1, g2, le_trans g3 (Nat.le_add_right _ _),
            fun hss => le_trans (g4 ⟨ha, hss.2⟩) (Nat.le_add_right _ _)⟩
      · split
        · exact ⟨g1, g2, le_trans g3 (Nat.le_add_right _ _),
            fun hss => absurd hss.1 (by simp)⟩
        · exact ⟨g1, g2, le_trans g3 (Nat.le_add_right _ _),
            fun hss => le_trans (g4 ⟨ha, hss.2⟩) (Nat.le_add_right _ _)⟩
    · rw [if_neg ha]
      exact ⟨g1, g2, le_trans g3 (Nat.le_add_right _ _),
        fun hss => absurd hss.1 ha⟩
  case ecn_ec =>
    simp only [picoquic_prague_notify, hn]
    split
    · rename_i hg
      refine ⟨h1, h2, ?_, fun hss => absurd hss.1 (by simp)⟩
      have hreg := h4 hg
      simp only [PICOQUIC_CWIN_MINIMUM, PICOQUIC_CWIN_INITIAL,
        PICOQUIC_MAX_PACKET_SIZE] at hreg v6 ⊢
      split <;> omega
    · exact ⟨h1, h2, h3, h4⟩
  case repeat_loss =>
    simp only [picoquic_prague_notify, hn]
    split
    · exact enter_recovery_inv _ _ _ _ v8
    · exact ⟨h1, h2, h3, h4⟩
  case timeout =>
    simp only [picoquic_prague_notify, hn]
    split
    · exact enter_recovery_inv _ _ _ _ v8
    · exact ⟨h1, h2, h3, h4⟩
  case spurious_repeat =>
    simp only [picoquic_prague_notify, hn]
    split
    · split
      · rename_i hlt
        exact ⟨h1, h2, le_trans h3 (Nat.le_of_lt hlt),
          fun hss => absurd hss.1 (by simp)⟩
      · exact ⟨h1, h2, h3, h4⟩
    · exact ⟨h1, h2, h3, h4⟩
  case rtt_measurement =>
    simp only [picoquic_prague_notify, hn]
    split
    · rename_i hg
      have hup : pw.cwin ≤
          (if PICOQUIC_TARGET_RENO_RTT < inp.rtt_min then
            (if pw.cwin < inp.rtt_boost_win then inp.rtt_boost_win else pw.cwin)
          else pw.cwin) := by
        split
        · split <;> omega
        · omega
      split
      · exact ⟨h1, h2, le_trans h3 hup, fun hss => absurd hss.1 (by simp)⟩
      · exact ⟨h1, h2, le_trans h3 hup, fun hss => le_trans (h4 ⟨hss.1, hss.2⟩) hup⟩
    · exact ⟨h1, h2, h3, h4⟩
  case bw_measurement =>
    simp only [picoquic_prague_notify, hn]
    split
    · rename_i hg
      split
      · rename_i hlt
        exact ⟨h1, h2, le_trans h3 (Nat.le_of_lt hlt),
          fun hss => le_trans (h4 ⟨hss.1, hss.2⟩) (Nat.le_of_lt hlt)⟩
      · exact ⟨h1, h2, h3, h4⟩
    · exact ⟨h1, h2, h3, h4⟩
  case reset =>
    simp only [picoquic_prague_notify, hn, picoquic_prague_reset]
    exact ⟨h1, h2, h3, fun hss => h4 ⟨hss.1, hss.2⟩⟩
  case other =>
    simp only [picoquic_prague_notify, hn]
    exact ⟨h1, h2, h3, h4⟩

lemma reachable_inv (sp : picoquic_prague_state × path_state)
    (h : prague_reachable sp) : prague_inv sp := by
  induction h with
  | init f =>
    exact ⟨(by decide : (0 : Nat) = 0 >>> PRAGUE_SHIFT_G),
      (by decide : (0 : Nat) ≤ 1024),
      (by decide : PICOQUIC_CWIN_MINIMUM ≤ PICOQUIC_CWIN_INITIAL),
      fun hss => (by decide : PICOQUIC_CWIN_INITIAL ≤ PICOQUIC_CWIN_INITIAL)⟩
  | step sp inp hr hv ih => exact notify_inv sp inp ih hv

lemma update_alpha_acked_total (inp : notify_input) (s : picoquic_prague_state)
    (pw : path_state) :
    (picoquic_prague_update_alpha inp s pw).1.acked_bytes_total = s.acked_bytes_total := by
  simp only [picoquic_prague_update_alpha, picoquic_prague_enter_recovery]
  split <;> try split
  all_goals try split
  all_goals try split
  all_goals rfl

lemma notify_ack_total (s : picoquic_prague_state) (pw : path_state) (inp : notify_input)
    (hn : inp.notification = .acknowledgement) :
    (picoquic_prague_notify inp (s, pw)).1.acked_bytes_total =
      s.acked_bytes_total + inp.nb_bytes_acknowledged := by
  simp only [picoquic_prague_notify, hn]
  by_cases hb : inp.nb_bytes_acknowledged ≠ 0
  · rw [if_pos hb]
    split
    · split <;> split <;> simp [update_alpha_acked_total]
    · simp [update_alpha_acked_total]
  · rw [if_neg hb]
    push_neg at hb
    split
    · split <;> split <;> simp [update_alpha_acked_total, hb]
    · simp [update_alpha_acked_total, hb]

/-- C1: for every reachable state and every notification delivered under the
host contract — in particular the window-reducing ones (direct ECN-CE,
epoch-closure ECN reduction, Loss, Timeout) — the path's window after
picoquic_prague_notify returns is at least the minimum-window floor
PICOQUIC_CWIN_MINIMUM. -/
theorem prague_c1_window_floor (sp : picoquic_prague_state × path_state)
    (inp : notify_input) (hr : prague_reachable sp) (hv : valid_input sp inp) :
    PICOQUIC_CWIN_MINIMUM ≤ (picoquic_prague_notify inp sp).2.cwin :=
  (notify_inv sp inp (reachable_inv sp hr) hv).2.2.1

/-- Concrete input for the C1 witness: a Timeout notification one RTT after
the start of the connection. -/
def w1_inp : notify_input :=
  { notification := .timeout
    rtt_measurement := 0
    one_way_delay := 0
    nb_bytes_acknowledged := 0
    current_time := 300000
    smoothed_rtt := 100000
    rtt_min := 0
    send_mtu := 1536
    max_bandwidth_estimate := 0
    path_packet_acked_number := 0
    send_sequence := 0
    ecn_ect0_total_remote := 0
    ecn_ce_total_remote := 0
    hystart_exit := false
    rtt_boost_win := 0 }

theorem prague_c1_window_floor_witness :
    PICOQUIC_CWIN_MINIMUM ≤
      (picoquic_prague_notify w1_inp (picoquic_prague_init false)).2.cwin :=
  prague_c1_window_floor (picoquic_prague_init false) w1_inp
    (prague_reachable.init false) (by decide)

/-- C2: for every reachable state of the congestion controller, the
fixed-point estimate alpha satisfies 0 ≤ alpha ≤ 1024 (the lower bound is
inherent to the unsigned representation), so the expression 1024 - alpha
used in every window-growth formula never underflows: the subtraction is
exact, as witnessed by (1024 - alpha) + alpha = 1024. -/
theorem prague_c2_alpha_range (sp : picoquic_prague_state × path_state)
    (hr : prague_reachable sp) :
    sp.1.alpha ≤ 1024 ∧ (1024 - sp.1.alpha) + sp.1.alpha = 1024 := by
  have h := (reachable_inv sp hr).2.1
  exact ⟨h, by omega⟩

theorem prague_c2_alpha_range_witness :
    (picoquic_prague_init false).1.alpha ≤ 1024 ∧
    (1024 - (picoquic_prague_init false).1.alpha) + (picoquic_prague_init false).1.alpha
      = 1024 :=
  prague_c2_alpha_range (picoquic_prague_init false) (prague_reachable.init false)

/-- C3: on a direct ECN-CE notification, if and only if the state is
SlowStart with ssthresh still the unset sentinel: one segment size is
subtracted from the window when the window exceeds the segment size (the
subtraction is skipped otherwise, so it never underflows), then ssthresh is
set to the resulting window, the path's threshold-set flag is set, and the
state moves to CongestionAvoidance; in any other state the notification
changes nothing. -/
theorem prague_c3_ecn_ce_direct (s : picoquic_prague_state) (pw : path_state)
    (inp : notify_input) (hn : inp.notification = .ecn_ec) :
    (s.alg_state = .slow_start ∧ s.ssthresh = UINT64_MAX →
      picoquic_prague_notify inp (s, pw) =
        ({ s with
            ssthresh := if inp.send_mtu < pw.cwin then pw.cwin - inp.send_mtu else pw.cwin
            alg_state := .congestion_avoidance },
         { cwin := if inp.send_mtu < pw.cwin then pw.cwin - inp.send_mtu else pw.cwin
           is_ssthresh_init := true })) ∧
    (¬(s.alg_state = .slow_start ∧ s.ssthresh = UINT64_MAX) →
      picoquic_prague_notify inp (s, pw) = (s, pw)) := by
  simp only [picoquic_prague_notify, hn]
  constructor
  · intro hg
    rw [if_pos hg]
  · intro hg
    rw [if_neg hg]

/-- Concrete input for the C3 witness: a direct ECN-CE notification. -/
def w3_inp : notify_input :=
  { w1_inp with notification := .ecn_ec }

theorem prague_c3_ecn_ce_direct_witness :
    picoquic_prague_notify w3_inp (picoquic_prague_init false) =
      ({ (picoquic_prague_init false).1 with
          ssthresh := 13824
          alg_state := .congestion_avoidance },
       { cwin := 13824, is_ssthresh_init := true }) := by
  have h := (prague_c3_ecn_ce_direct (picoquic_prague_init false).1
    (picoquic_prague_init false).2 w3_inp rfl).1 (by decide)
  exact h.trans (by decide)

/-- C10: a spurious-loss-correction notification within one smoothed RTT of
recovery_start, while ssthresh still holds the unset sentinel 2^64 - 1,
computes 2 * ssthresh modulo 2^64, so the window is set to 2^64 - 2 and the
state moves to CongestionAvoidance: the spurious-repeat path does not guard
against the sentinel. -/
theorem prague_c10_spurious_sentinel (s : picoquic_prague_state) (pw : path_state)
    (inp : notify_input) (hn : inp.notification = .spurious_repeat)
    (hs : s.ssthresh = UINT64_MAX)
    (ht : inp.current_time - s.recovery_start < inp.smoothed_rtt)
    (hc : pw.cwin < U64_SIZE - 2) :
    picoquic_prague_notify inp (s, pw) =
      ({ s with alg_state := .congestion_avoidance },
       { pw with cwin := U64_SIZE - 2 }) := by
  simp only [picoquic_prague_notify, hn, hs]
  rw [if_pos ht]
  have h2 : (2 * UINT64_MAX) % U64_SIZE = U64_SIZE - 2 := by decide
  rw [h2, if_pos hc]

/-- Concrete input for the C10 witness: a spurious-repeat notification half
an RTT into the connection. -/
def w10_inp : notify_input :=
  { w1_inp with notification := .spurious_repeat, current_time := 50000 }

theorem prague_c10_spurious_sentinel_witness :
    picoquic_prague_notify w10_inp (picoquic_prague_init false) =
      ({ (picoquic_prague_init false).1 with alg_state := .congestion_avoidance },
       { (picoquic_prague_init false).2 with cwin := U64_SIZE - 2 }) :=
  prague_c10_spurious_sentinel (picoquic_prague_init false).1
    (picoquic_prague_init false).2 w10_inp rfl (by decide) (by decide) (by decide)

/-- C9: a Reset notification clears only the two byte-accumulation counters:
every other controller field, the path's window and the threshold-set flag
are unchanged, and a subsequent Acknowledgement accumulates bytes as though
the counters had started at zero. -/
theorem prague_c9_reset_isolation (s : picoquic_prague_state) (pw : path_state)
    (inp inp2 : notify_input) :
    picoquic_prague_notify { inp with notification := .reset } (s, pw) =
      ({ s with acked_bytes_ecn := 0, acked_bytes_total := 0 }, pw) ∧
    (picoquic_prague_notify { inp2 with notification := .acknowledgement }
        (picoquic_prague_notify { inp with notification := .reset } (s, pw))).1.acked_bytes_total
      = inp2.nb_bytes_acknowledged := by
  refine ⟨rfl, ?_⟩
  have e : picoquic_prague_notify { inp with notification := .reset } (s, pw) =
      ({ s with acked_bytes_ecn := 0, acked_bytes_total := 0 }, pw) := rfl
  rw [e, notify_ack_total _ _ _ rfl]
  simp

/-- C4: in any state in which more than one smoothed RTT has elapsed since
recovery_start, a Timeout notification with window 1,000,000 sets ssthresh
to max(500,000, minimum-floor), sets the window to the minimum floor, moves
to SlowStart, records recovery_start := current time, and zeroes
residual_ack, alpha and alpha_shifted. -/
theorem prague_c4_timeout_scenario (s : picoquic_prague_state) (pw : path_state)
    (inp : notify_input) (hn : inp.notification = .timeout)
    (hw : pw.cwin = 1000000)
    (hg : inp.smoothed_rtt < inp.current_time - s.recovery_start) :
    (picoquic_prague_notify inp (s, pw)).1.ssthresh = max 500000 PICOQUIC_CWIN_MINIMUM ∧
    (picoquic_prague_notify inp (s, pw)).2.cwin = PICOQUIC_CWIN_MINIMUM ∧
    (picoquic_prague_notify inp (s, pw)).1.alg_state = .slow_start ∧
    (picoquic_prague_notify inp (s, pw)).1.recovery_start = inp.current_time ∧
    (picoquic_prague_notify inp (s, pw)).1.residual_ack = 0 ∧
    (picoquic_prague_notify inp (s, pw)).1.alpha = 0 ∧
    (picoquic_prague_notify inp (s, pw)).1.alpha_shifted = 0 := by
  simp only [picoquic_prague_notify, hn]
  rw [if_pos hg]
  simp only [picoquic_prague_enter_recovery, hw]
  norm_num [PICOQUIC_CWIN_MINIMUM, PICOQUIC_MAX_PACKET_SIZE]

/-- Concrete state for the C4 witness. -/
def w4_pw : path_state := { cwin := 1000000, is_ssthresh_init := true }

theorem prague_c4_timeout_scenario_witness :
    (picoquic_prague_notify w1_inp ((picoquic_prague_init false).1, w4_pw)).1.ssthresh
      = max 500000 PICOQUIC_CWIN_MINIMUM ∧
    (picoquic_prague_notify w1_inp ((picoquic_prague_init false).1, w4_pw)).2.cwin
      = PICOQUIC_CWIN_MINIMUM ∧
    (picoquic_prague_notify w1_inp ((picoquic_prague_init false).1, w4_pw)).1.alg_state
      = .slow_start ∧
    (picoquic_prague_notify w1_inp ((picoquic_prague_init false).1, w4_pw)).1.recovery_start
      = w1_inp.current_time ∧
    (picoquic_prague_notify w1_inp ((picoquic_prague_init false).1, w4_pw)).1.residual_ack
      = 0 ∧
    (picoquic_prague_notify w1_inp ((picoquic_prague_init false).1, w4_pw)).1.alpha = 0 ∧
    (picoquic_prague_notify w1_inp ((picoquic_prague_init false).1, w4_pw)).1.alpha_shifted
      = 0 :=
  prague_c4_timeout_scenario (picoquic_prague_init false).1 w4_pw w1_inp rfl rfl
    (by decide)

/-- C5: recovery is never entered twice within one smoothed RTT.  If a Loss
or Timeout notification enters recovery (more than one smoothed RTT having
elapsed since recovery_start) and a second Loss or Timeout notification
arrives no more than one smoothed RTT later, the second performs no state
change at all: recovery is entered only when strictly more than one
smoothed RTT has elapsed since recovery_start. -/
theorem prague_c5_recovery_cooldown (s : picoquic_prague_state) (pw : path_state)
    (inp1 inp2 : notify_input)
    (hn1 : inp1.notification = .repeat_loss ∨ inp1.notification = .timeout)
    (hn2 : inp2.notification = .repeat_loss ∨ inp2.notification = .timeout)
    (hg1 : inp1.smoothed_rtt < inp1.current_time - s.recovery_start)
    (ht : inp2.current_time - inp1.current_time ≤ inp2.smoothed_rtt) :
    picoquic_prague_notify inp2 (picoquic_prague_notify inp1 (s, pw)) =
      picoquic_prague_notify inp1 (s, pw) := by
  have hng : ¬ (inp2.smoothed_rtt < inp2.current_time - inp1.current_time) := by omega
  rcases hn1 with h1 | h1 <;> rcases hn2 with h2 | h2 <;>
    (first
      | (simp only [picoquic_prague_notify, h1, h2]
         rw [if_pos hg1]
         simp only [picoquic_prague_enter_recovery]
         rw [if_neg hng]))

/-- Concrete inputs for the C5 witness: a Loss entering recovery at time
200000 and a Timeout 50000 microseconds (half an RTT) later. -/
def w5_inp1 : notify_input :=
  { w1_inp with notification := .repeat_loss, current_time := 200000 }

def w5_inp2 : notify_input :=
  { w1_inp with notification := .timeout, current_time := 250000 }

theorem prague_c5_recovery_cooldown_witness :
    picoquic_prague_notify w5_inp2
        (picoquic_prague_notify w5_inp1 (picoquic_prague_init false)) =
      picoquic_prague_notify w5_inp1 (picoquic_prague_init false) :=
  prague_c5_recovery_cooldown (picoquic_prague_init false).1
    (picoquic_prague_init false).2 w5_inp1 w5_inp2 (Or.inl rfl) (Or.inr rfl)
    (by decide) (by decide)

/-- C6: on epoch closure with prior alpha = 0, delta_ect0 = 0 and
delta_ce = 100, frac evaluates to 1024, which exceeds the fixed snap
threshold 512, so alpha snaps directly to 1024 (alpha_shifted to 1024 * 16)
without the EWMA smoothing step, and because alpha > 512 the update
requests full recovery entry. -/
theorem prague_c6_sudden_onset_snap (s : picoquic_prague_state) (pw : path_state)
    (inp : notify_input)
    (hal : s.alpha = 0)
    (he : s.l4s_epoch_send ≤ inp.path_packet_acked_number)
    (hce : inp.ecn_ce_total_remote = s.l4s_epoch_ce + 100)
    (he0 : inp.ecn_ect0_total_remote = s.l4s_epoch_ect0) :
    prague_frac 100 0 = 1024 ∧
    prague_epoch_alpha s.alpha s.alpha_shifted 1024 = (1024, 16384) ∧
    picoquic_prague_update_alpha inp s pw =
      picoquic_prague_enter_recovery .ecn_ec inp
        { s with
            alpha := 1024
            alpha_shifted := 16384
            l4s_epoch_send := inp.send_sequence
            l4s_epoch_ect0 := inp.ecn_ect0_total_remote
            l4s_epoch_ce := inp.ecn_ce_total_remote } pw := by
  refine ⟨by norm_num [prague_frac], ?_, ?_⟩
  · rw [hal]
    rfl
  · simp only [picoquic_prague_update_alpha, hce, he0, Nat.add_sub_cancel_left,
      Nat.sub_self, hal]
    rw [if_pos he]
    norm_num [prague_frac, prague_epoch_alpha, PRAGUE_SHIFT_G, Nat.shiftLeft_eq]

/-- Concrete state and input for the C6 witness: alpha 0, one hundred CE
marks and no ECT0 marks since the epoch opened. -/
def w6_state : picoquic_prague_state := (picoquic_prague_init false).1

def w6_inp : notify_input :=
  { w1_inp with
      notification := .acknowledgement
      ecn_ce_total_remote := 100
      path_packet_acked_number := 5 }

theorem prague_c6_sudden_onset_snap_witness :
    prague_frac 100 0 = 1024 ∧
    prague_epoch_alpha w6_state.alpha w6_state.alpha_shifted 1024 = (1024, 16384) ∧
    picoquic_prague_update_alpha w6_inp w6_state (picoquic_prague_init false).2 =
      picoquic_prague_enter_recovery .ecn_ec w6_inp
        { w6_state with
            alpha := 1024
            alpha_shifted := 16384
            l4s_epoch_send := w6_inp.send_sequence
            l4s_epoch_ect0 := w6_inp.ecn_ect0_total_remote
            l4s_epoch_ce := w6_inp.ecn_ce_total_remote } (picoquic_prague_init false).2 :=
  prague_c6_sudden_onset_snap w6_state (picoquic_prague_init false).2 w6_inp rfl
    (by decide) (by decide) rfl

/-- C7: on epoch closure with at least one mark and frac not exceeding the
snap threshold 512 (with prior alpha at most 512, which every reachable
epoch in that regime satisfies), the update is the exact integer EWMA with
gain 1/16: alpha_shifted becomes alpha_shifted + (frac - alpha) and alpha
becomes the new accumulator shifted right by four bits, with truncating
bit-shift semantics. -/
theorem prague_c7_ewma_exact (s : picoquic_prague_state) (pw : path_state)
    (inp : notify_input)
    (hinv : s.alpha = s.alpha_shifted >>> PRAGUE_SHIFT_G)
    (hal : s.alpha ≤ 512)
    (he : s.l4s_epoch_send ≤ inp.path_packet_acked_number)
    (hmark : 0 < inp.ecn_ce_total_remote - s.l4s_epoch_ce ∨
      0 < inp.ecn_ect0_total_remote - s.l4s_epoch_ect0)
    (hfr : prague_frac (inp.ecn_ce_total_remote - s.l4s_epoch_ce)
      (inp.ecn_ect0_total_remote - s.l4s_epoch_ect0) ≤ 512) :
    (picoquic_prague_update_alpha inp s pw).1.alpha_shifted =
      s.alpha_shifted + prague_frac (inp.ecn_ce_total_remote - s.l4s_epoch_ce)
        (inp.ecn_ect0_total_remote - s.l4s_epoch_ect0) - s.alpha ∧
    (picoquic_prague_update_alpha inp s pw).1.alpha =
      (s.alpha_shifted + prague_frac (inp.ecn_ce_total_remote - s.l4s_epoch_ce)
        (inp.ecn_ect0_total_remote - s.l4s_epoch_ect0) - s.alpha) >>> PRAGUE_SHIFT_G := by
  have hew := prague_epoch_alpha_ewma s.alpha s.alpha_shifted
    (prague_frac (inp.ecn_ce_total_remote - s.l4s_epoch_ce)
      (inp.ecn_ect0_total_remote - s.l4s_epoch_ect0)) hinv hal hfr
  simp only [picoquic_prague_update_alpha]
  rw [if_pos he, if_pos hmark, hew.1]
  by_cases hce : 0 < inp.ecn_ce_total_remote - s.l4s_epoch_ce
  · rw [if_pos hce, if_neg (not_lt.mpr hew.2)]
    exact ⟨rfl, rfl⟩
  · rw [if_neg hce]
    exact ⟨rfl, rfl⟩

/-- Concrete state and input for the C7 witness: prior alpha 100 (shifted
accumulator 1600), 150 CE and 874 ECT0 marks in the epoch, so frac = 150,
the accumulator gains exactly 50, and alpha becomes 1650 >> 4 = 103. -/
def w7_state : picoquic_prague_state :=
  { (picoquic_prague_init false).1 with alpha := 100, alpha_shifted := 1600 }

def w7_inp : notify_input :=
  { w1_inp with
      notification := .acknowledgement
      ecn_ce_total_remote := 150
      ecn_ect0_total_remote := 874
      path_packet_acked_number := 5 }

theorem prague_c7_ewma_exact_witness :
    (picoquic_prague_update_alpha w7_inp w7_state (picoquic_prague_init false).2).1.alpha_shifted
      = 1650 ∧
    (picoquic_prague_update_alpha w7_inp w7_state (picoquic_prague_init false).2).1.alpha
      = 103 := by
  have h := prague_c7_ewma_exact w7_state (picoquic_prague_init false).2 w7_inp
    (by decide) (by decide) (by decide) (by decide) (by decide)
  exact ⟨h.1.trans (by decide), h.2.trans (by decide)⟩

/-- Congestion-avoidance state for the C8 counterexample: alpha = 512
(accumulator 8192), residual_ack = 0, epoch still open (epoch marker ahead
of the acknowledged number, so no epoch closure interferes). -/
def c8_state : picoquic_prague_state :=
  { alg_state := .congestion_avoidance
    alpha_shifted := 8192
    alpha := 512
    acked_bytes_ecn := 0
    acked_bytes_total := 0
    loss_cwnd := 0
    residual_ack := 0
    ssthresh := 20000
    recovery_start := 0
    l4s_epoch_send := 1000
    l4s_epoch_ect0 := 0
    l4s_epoch_ce := 0 }

def c8_pw : path_state := { cwin := 15360, is_ssthresh_init := true }

/-- Acknowledgement of 10 packets of 1536 bytes: combined
bytes * segment_size = 15360 = the window, exactly as the claim requires. -/
def c8_inp : notify_input :=
  { w1_inp with
      notification := .acknowledgement
      nb_bytes_acknowledged := 10
      path_packet_acked_number := 5 }

/-- C8 counterexample: a single acknowledgement whose bytes * segment_size
equals exactly the window, starting from residual_ack = 0, in congestion
avoidance with alpha = 512.  The final residual_ack is zero as the claim
says, but the net window increase is 0, not
segment_size * (1024 - alpha) / 1024 = 768: the quotient raw = 1 is scaled
by (1024 - alpha)/1024 with per-step integer flooring, so the claimed net
increase is wrong. -/
theorem prague_c8_counterexample :
    c8_inp.nb_bytes_acknowledged * c8_inp.send_mtu = c8_pw.cwin ∧
    c8_state.residual_ack = 0 ∧
    c8_state.alg_state = .congestion_avoidance ∧
    (picoquic_prague_notify c8_inp (c8_state, c8_pw)).1.residual_ack = 0 ∧
    (picoquic_prague_notify c8_inp (c8_state, c8_pw)).2.cwin = c8_pw.cwin ∧
    ¬ (picoquic_prague_notify c8_inp (c8_state, c8_pw)).2.cwin =
        c8_pw.cwin + c8_inp.send_mtu * (1024 - c8_state.alpha) / 1024 := by
  decide

/-- Epoch not yet closed: picoquic_prague_update_alpha leaves everything
unchanged (prague.c line 219). -/
lemma update_alpha_skip (inp : notify_input) (s : picoquic_prague_state)
    (pw : path_state) (hskip : ¬ s.l4s_epoch_send ≤ inp.path_packet_acked_number) :
    picoquic_prague_update_alpha inp s pw = (s, pw) := by
  unfold picoquic_prague_update_alpha
  rw [if_neg hskip]

/-- C8 amended: in CongestionAvoidance (epoch still open, window positive),
one acknowledgement is characterised exactly by the residual carry: the
window gains ((bytes * segment_size + residual_ack) / window) *
(1024 - alpha) / 1024 and residual_ack becomes
(bytes * segment_size + residual_ack) mod window; in particular a single
acknowledgement of exactly window bytes starting from residual_ack = 0
increases the window by exactly segment_size * (1024 - alpha) / 1024 and
leaves residual_ack = 0. -/
theorem prague_c8_residual_exact (s : picoquic_prague_state) (pw : path_state)
    (inp : notify_input)
    (hn : inp.notification = .acknowledgement)
    (hca : s.alg_state = .congestion_avoidance)
    (hskip : ¬ s.l4s_epoch_send ≤ inp.path_packet_acked_number)
    (hcw : 0 < pw.cwin) :
    (picoquic_prague_notify inp (s, pw)).2.cwin =
      pw.cwin + (inp.nb_bytes_acknowledged * inp.send_mtu + s.residual_ack) / pw.cwin
        * (1024 - s.alpha) / 1024 ∧
    (picoquic_prague_notify inp (s, pw)).1.residual_ack =
      (inp.nb_bytes_acknowledged * inp.send_mtu + s.residual_ack) % pw.cwin ∧
    (s.residual_ack = 0 → inp.nb_bytes_acknowledged = pw.cwin →
      (picoquic_prague_notify inp (s, pw)).2.cwin =
        pw.cwin + inp.send_mtu * (1024 - s.alpha) / 1024 ∧
      (picoquic_prague_notify inp (s, pw)).1.residual_ack = 0) := by
  have hnss : ¬ s.alg_state = picoquic_prague_alg_state.slow_start := by
    rw [hca]
    simp
  have h1 : (picoquic_prague_notify inp (s, pw)).2.cwin =
      pw.cwin + (inp.nb_bytes_acknowledged * inp.send_mtu + s.residual_ack) / pw.cwin
        * (1024 - s.alpha) / 1024 := by
    simp only [picoquic_prague_notify, hn]
    split
    · rw [update_alpha_skip inp
        { s with acked_bytes_total := s.acked_bytes_total + inp.nb_bytes_acknowledged }
        pw hskip]
      dsimp only
      rw [if_neg hnss]
    · rw [update_alpha_skip inp s pw hskip]
      dsimp only
      rw [if_neg hnss]
  have h2 : (picoquic_prague_notify inp (s, pw)).1.residual_ack =
      (inp.nb_bytes_acknowledged * inp.send_mtu + s.residual_ack) % pw.cwin := by
    simp only [picoquic_prague_notify, hn]
    split
    · rw [update_alpha_skip inp
        { s with acked_bytes_total := s.acked_bytes_total + inp.nb_bytes_acknowledged }
        pw hskip]
      dsimp only
      rw [if_neg hnss]
    · rw [update_alpha_skip inp s pw hskip]
      dsimp only
      rw [if_neg hnss]
  refine ⟨h1, h2, ?_⟩
  intro h0 hbytes
  constructor
  · rw [h1, h0, hbytes, Nat.add_zero, Nat.mul_div_cancel_left _ hcw]
  · rw [h2, h0, hbytes, Nat.add_zero, Nat.mul_mod_right]

/-- Acknowledgement of exactly window bytes for the C8 amended witness. -/
def c8w_inp : notify_input :=
  { c8_inp with nb_bytes_acknowledged := 15360 }

theorem prague_c8_residual_exact_witness :
    (picoquic_prague_notify c8w_inp (c8_state, c8_pw)).2.cwin =
      c8_pw.cwin +
        (c8w_inp.nb_bytes_acknowledged * c8w_inp.send_mtu + c8_state.residual_ack)
          / c8_pw.cwin * (1024 - c8_state.alpha) / 1024 ∧
    (picoquic_prague_notify c8w_inp (c8_state, c8_pw)).1.residual_ack =
      (c8w_inp.nb_bytes_acknowledged * c8w_inp.send_mtu + c8_state.residual_ack)
        % c8_pw.cwin ∧
    (c8_state.residual_ack = 0 → c8w_inp.nb_bytes_acknowledged = c8_pw.cwin →
      (picoquic_prague_notify c8w_inp (c8_state, c8_pw)).2.cwin =
        c8_pw.cwin + c8w_inp.send_mtu * (1024 - c8_state.alpha) / 1024 ∧
      (picoquic_prague_notify c8w_inp (c8_state, c8_pw)).1.residual_ack = 0) :=
  prague_c8_residual_exact c8_state c8_pw c8w_inp rfl rfl (by decide) (by decide)
